import Mathlib

/-!
# PooPyLab `model_builder/sundials`: the residual function of the two-inlet / one-reactor DAE

Shallow embedding of

* `model_constants.h`, `model_input.h` (the `RCONST` constants),
* `utilities.h` (the 1-based accessor `Ith`),
* `system_equations.c` (`funcGrowth`, the IDA residual callback),
* the initialisation of the id vector `yid` in `main` of `sundials_ida_trial.c`.

Arithmetic is exact: a `realtype` is a rational number and a decimal literal such as `0.62`
denotes the rational `62/100`.  The only partial operation of the source is `/`; a quotient
whose divisor is zero has no value in exact arithmetic, so the residual slots written by
`funcGrowth` hold an `Option ℚ`, with `none` for a slot whose expression divides by zero.
-/

namespace PooPyLab

set_option linter.unusedVariables false

/-! ## Types -/

/-- The scalar type of SUNDIALS, taken exactly. -/
abbrev realtype := ℚ

/-- Data of a serial `N_Vector` holding finite values, addressed from slot `0`. -/
abbrev N_Vector := Nat → realtype

/-- Data of the residual vector `LHS`: a slot is `none` when the expression stored into it
divided by zero. -/
abbrev N_Residual := Nat → Option realtype

/-! ## `system_equations.h`, `model_constants.h`, `model_input.h` -/

/-- Number of equations, `#define NEQ 16`. -/
def NEQ : Nat := 16

/-- Constant `#define ZERO RCONST(0.0)`. -/
def ZERO : realtype := 0.0
/-- Constant `#define MU_MAX RCONST(6.0)`. -/
def MU_MAX : realtype := 6.0
/-- Constant `#define DECAY RCONST(0.62)`. -/
def DECAY : realtype := 0.62
/-- Constant `#define KD RCONST(0.08)`. -/
def KD : realtype := 0.08
/-- Constant `#define YH RCONST(0.67)`. -/
def YH : realtype := 0.67
/-- Constant `#define KS RCONST(10.0)`. -/
def KS : realtype := 10.0

/-- Constant `#define X0 RCONST(2000.0)`. -/
def X0 : realtype := 2000.0
/-- Constant `#define S0 RCONST(1.0)`. -/
def S0 : realtype := 1.0
/-- Constant `#define D0 RCONST(1.0e2)`. -/
def D0 : realtype := 1.0e2
/-- Constant `#define VOL RCONST(378000.0)`. -/
def VOL : realtype := 378000.0
/-- Constant `#define ONE RCONST(1.0)`. -/
def ONE : realtype := 1.0
/-- Constant `#define P1_IN_F RCONST(7800.0)`. -/
def P1_IN_F : realtype := 7800.0
/-- Constant `#define P1_IN_X RCONST(0.0)`. -/
def P1_IN_X : realtype := 0.0
/-- Constant `#define P1_IN_S RCONST(395.0)`. -/
def P1_IN_S : realtype := 395.0
/-- Constant `#define P1_IN_D RCONST(0.0)`. -/
def P1_IN_D : realtype := 0.0
/-- Constant `#define P2_IN_F RCONST(30000.0)`. -/
def P2_IN_F : realtype := 30000.0
/-- Constant `#define P2_IN_X RCONST(0.0)`. -/
def P2_IN_X : realtype := 0.0
/-- Constant `#define P2_IN_S RCONST(395.0)`. -/
def P2_IN_S : realtype := 395.0
/-- Constant `#define P2_IN_D RCONST(0.0)`. -/
def P2_IN_D : realtype := 0.0

/-! ## `utilities.h` -/

/-- Accessor `NV_Ith_S(v,i)`: slot `i` of the data, counted from `0`. -/
def NV_Ith_S {α : Type} (v : Nat → α) (i : Nat) : α := v i

/-- Read through `#define Ith(v,i) NV_Ith_S(v,i-1)`: components are numbered `1..NEQ`. -/
def Ith {α : Type} (v : Nat → α) (i : Nat) : α := NV_Ith_S v (i - 1)

/-- Assignment `Ith(v,i) = x`: slot `i-1` is overwritten, every other slot is kept. -/
def Ith_set {α : Type} (v : Nat → α) (i : Nat) (x : α) : Nat → α :=
  fun j => if j = i - 1 then x else v j

/-! ## Exact division -/

/-- Quotient `a / b` of the source in exact arithmetic: no value when the divisor is zero. -/
def rdiv (a b : realtype) : Option realtype :=
  if b = 0 then none else some (a / b)

/-! ## `system_equations.c` -/

/-- Residual callback `funcGrowth(t, y, yp, LHS, user_data)`.  The sixteen assignments to
`Ith(LHS,k)` are performed in source order on the vector passed in; the result is the
return code together with the updated `LHS`. -/
def funcGrowth (t : realtype) (y yp : N_Vector) (LHS : N_Residual) (user_data : Unit) :
    Int × N_Residual :=
  let P1_mo_F := Ith y 1;  let P1_mo_X := Ith y 2;  let P1_mo_S := Ith y 3;  let P1_mo_D := Ith y 4
  let P2_mo_F := Ith y 5;  let P2_mo_X := Ith y 6;  let P2_mo_S := Ith y 7;  let P2_mo_D := Ith y 8
  let R1_in_F := Ith y 9;  let R1_in_X := Ith y 10; let R1_in_S := Ith y 11; let R1_in_D := Ith y 12
  let R1_mo_F := Ith y 13; let R1_mo_X := Ith y 14; let R1_mo_S := Ith y 15; let R1_mo_D := Ith y 16
  let LHS := Ith_set LHS 1 (some (P1_mo_F - P1_IN_F))
  let LHS := Ith_set LHS 2 (some (P1_mo_X - P1_IN_X))
  let LHS := Ith_set LHS 3 (some (P1_mo_S - P1_IN_S))
  let LHS := Ith_set LHS 4 (some (P1_mo_D - P1_IN_D))
  let LHS := Ith_set LHS 5 (some (P2_mo_F - P2_IN_F))
  let LHS := Ith_set LHS 6 (some (P2_mo_X - P2_IN_X))
  let LHS := Ith_set LHS 7 (some (P2_mo_S - P2_IN_S))
  let LHS := Ith_set LHS 8 (some (P2_mo_D - P2_IN_D))
  let LHS := Ith_set LHS 9 (some (R1_in_F - (P1_mo_F + P2_mo_F)))
  let LHS := Ith_set LHS 10 (do
    let q ← rdiv (P1_mo_F * P1_mo_X + P2_mo_F * P2_mo_X) R1_in_F
    pure (R1_in_X - q))
  let LHS := Ith_set LHS 11 (do
    let q ← rdiv (P1_mo_F * P1_mo_S + P2_mo_F * P2_mo_S) R1_in_F
    pure (R1_in_S - q))
  let LHS := Ith_set LHS 12 (do
    let q ← rdiv (P1_mo_F * P1_mo_D + P2_mo_F * P2_mo_D) R1_in_F
    pure (R1_in_D - q))
  let LHS := Ith_set LHS 13 (some (R1_mo_F - R1_in_F))
  let LHS := Ith_set LHS 14 (do
    let h ← rdiv R1_mo_F VOL
    let m ← rdiv (MU_MAX * R1_mo_S) (KS + R1_mo_S)
    pure (h * (R1_in_X - R1_mo_X) + (m - DECAY) * R1_mo_X - Ith yp 14))
  let LHS := Ith_set LHS 15 (do
    let h ← rdiv R1_mo_F VOL
    let m ← rdiv (MU_MAX * R1_mo_S) (KS + R1_mo_S)
    let g ← rdiv m (-YH)
    pure (h * (R1_in_S - R1_mo_S) + (g + (ONE - KD) * DECAY) * R1_mo_X - Ith yp 15))
  let LHS := Ith_set LHS 16 (do
    let h ← rdiv R1_mo_F VOL
    pure (h * (R1_in_D - R1_mo_D) + KD * DECAY * R1_mo_X - Ith yp 16))
  (0, LHS)

/-- Divisors of the nine `/` of `funcGrowth`, in source order: three by `R1_in_F`
(`LHS` 10, 11, 12), then `VOL` and `KS+R1_mo_S` (`LHS` 14), `VOL`, `KS+R1_mo_S` and `-YH`
(`LHS` 15), `VOL` (`LHS` 16). -/
def funcGrowth_divisors (y : N_Vector) : List realtype :=
  let R1_in_F := Ith y 9
  let R1_mo_S := Ith y 15
  [R1_in_F, R1_in_F, R1_in_F, VOL, KS + R1_mo_S, VOL, KS + R1_mo_S, -YH, VOL]

/-! ## `sundials_ida_trial.c`: the id vector -/

/-- Loop `for(i=1; i<14; i++) Ith(yid,i) = 0.0;` entered with counter `i`. -/
def yid_loop (i : Nat) (yid : N_Vector) : N_Vector :=
  if i < 14 then yid_loop (i + 1) (Ith_set yid i 0.0) else yid
termination_by 14 - i

/-- Initialisation of `yid` in `main`: the loop over `1..13`, then
`Ith(yid,14) = 1.0; Ith(yid,15) = 1.0; Ith(yid,16) = 1.0;`.  The argument is the content of
the freshly allocated vector, which `N_VNew_Serial` leaves unspecified. -/
def main_yid (yid : N_Vector) : N_Vector :=
  let yid := yid_loop 1 yid
  let yid := Ith_set yid 14 1.0
  let yid := Ith_set yid 15 1.0
  let yid := Ith_set yid 16 1.0
  yid

/-- Loop `for(i=1; i<NEQ+1; i++) Ith(yp,i) = 0.0;` of `main`, entered with counter `i`. -/
def yp_loop (i : Nat) (yp : N_Vector) : N_Vector :=
  if i < NEQ + 1 then yp_loop (i + 1) (Ith_set yp i 0.0) else yp
termination_by NEQ + 1 - i

/-- Initial derivative of `main`: the loop started at `i = 1` on the freshly allocated
vector. -/
def main_yp (yp : N_Vector) : N_Vector := yp_loop 1 yp

/-- Initial guess of `main`: the sixteen assignments `Ith(yy,1) = 2000.0; Ith(yy,2) = X0; ...`
in source order on the freshly allocated vector. -/
def main_yy (yy : N_Vector) : N_Vector :=
  let yy := Ith_set yy 1 2000.0;  let yy := Ith_set yy 2 X0
  let yy := Ith_set yy 3 S0;      let yy := Ith_set yy 4 D0
  let yy := Ith_set yy 5 2000.0;  let yy := Ith_set yy 6 X0
  let yy := Ith_set yy 7 S0;      let yy := Ith_set yy 8 D0
  let yy := Ith_set yy 9 2000.0;  let yy := Ith_set yy 10 X0
  let yy := Ith_set yy 11 S0;     let yy := Ith_set yy 12 D0
  let yy := Ith_set yy 13 2000.0; let yy := Ith_set yy 14 X0
  let yy := Ith_set yy 15 S0;     let yy := Ith_set yy 16 D0
  yy

/-! ## Vocabulary of the properties -/

/-- The residual computed by `funcGrowth` is the zero vector: each of the `NEQ` components
is defined and equal to `0`. -/
def ZeroResidual (LHS : N_Residual) : Prop :=
  ∀ i, 1 ≤ i → i ≤ NEQ → Ith LHS i = some 0

/-- The residual is defined on all `NEQ` components. -/
def DefinedResidual (LHS : N_Residual) : Prop :=
  ∀ i, 1 ≤ i → i ≤ NEQ → (Ith LHS i).isSome = true

/-- The result of `funcGrowth` depends on the derivative entry `yp[i]`: changing that entry
alone changes the residual for some input. -/
def DependsOnYp (i : Nat) : Prop :=
  ∃ (t : realtype) (y yp : N_Vector) (LHS : N_Residual) (x : realtype),
    (funcGrowth t y (Ith_set yp i x) LHS ()).2 ≠ (funcGrowth t y yp LHS ()).2

/-- A concrete state or derivative vector given by its components `1..NEQ` in order; slots
beyond the list read `0`. -/
def vec (l : List realtype) : N_Vector := fun j => l.getD j 0

/-- A residual vector before the first call: no slot holds a value. -/
def noResidual : N_Residual := fun _ => none

/-- The state `yy` that `main` hands to `IDAInit`, the allocated memory being read as zeros
before the assignments. -/
def yy0 : N_Vector := main_yy (vec [])

/-- The derivative `yp` that `main` hands to `IDAInit`. -/
def yp0 : N_Vector := main_yp (vec [])

/-- The hand-computed steady state for the influent of the repository: inlets
`(7800, 0, 395, 0)` and `(30000, 0, 395, 0)`, reactor inlet `(37800, 0, 395, 0)`, reactor
outlet flow `37800`, biomass `36263750/464519`, substrate `15/11`, inert solids
`17986820/464519`. -/
def steady : N_Vector :=
  vec [7800, 0, 395, 0, 30000, 0, 395, 0, 37800, 0, 395, 0,
       37800, 36263750 / 464519, 15 / 11, 17986820 / 464519]

/-! ## Basic facts -/

theorem Ith_set_same {α : Type} (v : Nat → α) (i : Nat) (x : α) : Ith (Ith_set v i x) i = x := by
  simp [Ith, Ith_set, NV_Ith_S]

theorem Ith_set_other {α : Type} (v : Nat → α) (i k : Nat) (x : α) (h : k - 1 ≠ i - 1) :
    Ith (Ith_set v i x) k = Ith v k := by
  simp [Ith, Ith_set, NV_Ith_S, h]

theorem rdiv_of_ne (a : realtype) {b : realtype} (hb : b ≠ 0) : rdiv a b = some (a / b) := by
  simp [rdiv, hb]

theorem rdiv_zero (a : realtype) : rdiv a 0 = none := by
  simp [rdiv]

theorem rdiv_eq_some_iff (a b q : realtype) : rdiv a b = some q ↔ b ≠ 0 ∧ a / b = q := by
  unfold rdiv
  by_cases hb : b = 0 <;> simp [hb]

theorem VOL_ne_zero : VOL ≠ 0 := by
  norm_num [VOL]

theorem neg_YH_ne_zero : -YH ≠ 0 := by
  norm_num [YH]

theorem rdiv_VOL (a : realtype) : rdiv a VOL = some (a / VOL) :=
  rdiv_of_ne a VOL_ne_zero

theorem rdiv_neg_YH (a : realtype) : rdiv a (-YH) = some (a / -YH) :=
  rdiv_of_ne a neg_YH_ne_zero

/-! ## The sixteen slots written by `funcGrowth` -/

section slots
variable (t : realtype) (y yp : N_Vector) (LHS : N_Residual)

theorem funcGrowth_ret : (funcGrowth t y yp LHS ()).1 = 0 := rfl

theorem LHS_1 : Ith (funcGrowth t y yp LHS ()).2 1 = some (Ith y 1 - P1_IN_F) := rfl
theorem LHS_2 : Ith (funcGrowth t y yp LHS ()).2 2 = some (Ith y 2 - P1_IN_X) := rfl
theorem LHS_3 : Ith (funcGrowth t y yp LHS ()).2 3 = some (Ith y 3 - P1_IN_S) := rfl
theorem LHS_4 : Ith (funcGrowth t y yp LHS ()).2 4 = some (Ith y 4 - P1_IN_D) := rfl
theorem LHS_5 : Ith (funcGrowth t y yp LHS ()).2 5 = some (Ith y 5 - P2_IN_F) := rfl
theorem LHS_6 : Ith (funcGrowth t y yp LHS ()).2 6 = some (Ith y 6 - P2_IN_X) := rfl
theorem LHS_7 : Ith (funcGrowth t y yp LHS ()).2 7 = some (Ith y 7 - P2_IN_S) := rfl
theorem LHS_8 : Ith (funcGrowth t y yp LHS ()).2 8 = some (Ith y 8 - P2_IN_D) := rfl
theorem LHS_9 : Ith (funcGrowth t y yp LHS ()).2 9 = some (Ith y 9 - (Ith y 1 + Ith y 5)) := rfl

theorem LHS_10 : Ith (funcGrowth t y yp LHS ()).2 10 =
    (rdiv (Ith y 1 * Ith y 2 + Ith y 5 * Ith y 6) (Ith y 9)).bind
      fun q => some (Ith y 10 - q) := rfl

theorem LHS_11 : Ith (funcGrowth t y yp LHS ()).2 11 =
    (rdiv (Ith y 1 * Ith y 3 + Ith y 5 * Ith y 7) (Ith y 9)).bind
      fun q => some (Ith y 11 - q) := rfl

theorem LHS_12 : Ith (funcGrowth t y yp LHS ()).2 12 =
    (rdiv (Ith y 1 * Ith y 4 + Ith y 5 * Ith y 8) (Ith y 9)).bind
      fun q => some (Ith y 12 - q) := rfl

theorem LHS_13 : Ith (funcGrowth t y yp LHS ()).2 13 = some (Ith y 13 - Ith y 9) := rfl

theorem LHS_14 : Ith (funcGrowth t y yp LHS ()).2 14 =
    (rdiv (Ith y 13) VOL).bind fun h =>
    (rdiv (MU_MAX * Ith y 15) (KS + Ith y 15)).bind fun m =>
      some (h * (Ith y 10 - Ith y 14) + (m - DECAY) * Ith y 14 - Ith yp 14) := rfl

theorem LHS_15 : Ith (funcGrowth t y yp LHS ()).2 15 =
    (rdiv (Ith y 13) VOL).bind fun h =>
    (rdiv (MU_MAX * Ith y 15) (KS + Ith y 15)).bind fun m =>
    (rdiv m (-YH)).bind fun g =>
      some (h * (Ith y 11 - Ith y 15) + (g + (ONE - KD) * DECAY) * Ith y 14 - Ith yp 15) := rfl

theorem LHS_16 : Ith (funcGrowth t y yp LHS ()).2 16 =
    (rdiv (Ith y 13) VOL).bind fun h =>
      some (h * (Ith y 12 - Ith y 16) + KD * DECAY * Ith y 14 - Ith yp 16) := rfl

end slots

/-! ## The vectors initialised by `main` -/

theorem yid_loop_apply (i : Nat) (v : N_Vector) (j : Nat) :
    yid_loop i v j = if i ≤ j + 1 ∧ j + 1 < 14 then 0 else v j := by
  induction i, v using yid_loop.induct with
  | case1 i v h ih =>
    rw [yid_loop, if_pos h, ih]
    simp only [Ith_set]
    split_ifs <;> first | rfl | (exfalso; omega) | norm_num
  | case2 i v h =>
    rw [yid_loop, if_neg h]
    have h2 : ¬ (i ≤ j + 1 ∧ j + 1 < 14) := fun hc => h (lt_of_le_of_lt hc.1 hc.2)
    rw [if_neg h2]

theorem yp_loop_apply (i : Nat) (v : N_Vector) (j : Nat) :
    yp_loop i v j = if i ≤ j + 1 ∧ j + 1 < NEQ + 1 then 0 else v j := by
  induction i, v using yp_loop.induct with
  | case1 i v h ih =>
    rw [yp_loop, if_pos h, ih]
    simp only [NEQ, Ith_set] at h ⊢
    split_ifs <;> first | rfl | (exfalso; omega) | norm_num
  | case2 i v h =>
    rw [yp_loop, if_neg h]
    have h2 : ¬ (i ≤ j + 1 ∧ j + 1 < NEQ + 1) := fun hc => h (lt_of_le_of_lt hc.1 hc.2)
    rw [if_neg h2]

/-- Every component `1..NEQ` of the initial derivative of `main` is zero. -/
theorem main_yp_zero (v : N_Vector) (i : Nat) (h1 : 1 ≤ i) (h2 : i ≤ NEQ) :
    Ith (main_yp v) i = 0 := by
  simp only [NEQ] at h2
  have hc : 1 ≤ i - 1 + 1 ∧ i - 1 + 1 < NEQ + 1 := by simp only [NEQ]; omega
  simp only [Ith, NV_Ith_S, main_yp, yp_loop_apply, if_pos hc]

/-- Components of the initial guess of `main`, stream by stream: flow `2000`, biomass `X0`,
substrate `S0`, inert solids `D0`. -/
theorem yy0_components :
    Ith yy0 9 = 2000 ∧ Ith yy0 10 = 2000 ∧ Ith yy0 11 = 1 ∧ Ith yy0 12 = 100 ∧
    Ith yy0 13 = 2000 ∧ Ith yy0 14 = 2000 ∧ Ith yy0 15 = 1 ∧ Ith yy0 16 = 100 := by
  simp only [yy0, main_yy, Ith, Ith_set, NV_Ith_S, X0, S0, D0]
  norm_num

theorem yp0_zero (i : Nat) (h1 : 1 ≤ i) (h2 : i ≤ NEQ) : Ith yp0 i = 0 :=
  main_yp_zero _ i h1 h2

/-- Components of the id vector of `main`. -/
theorem main_yid_apply (v : N_Vector) (i : Nat) (h1 : 1 ≤ i) (h2 : i ≤ NEQ) :
    Ith (main_yid v) i = if 14 ≤ i then 1 else 0 := by
  simp only [NEQ] at h2
  simp only [Ith, NV_Ith_S, main_yid, Ith_set, yid_loop_apply]
  interval_cases i <;> norm_num

/-! ## The reactor equations -/

/-- C1 (amended): for every `t`, `y`, `yp` with `KS + y[15] ≠ 0` the substrate residual
written by `funcGrowth` is
`LHS[15] = (y[13]/VOL)*(y[11]-y[15]) + (-(MU_MAX*y[15]/(KS+y[15]))/YH + (1-KD)*DECAY)*y[14] - yp[15]`:
the kinetic term is `(-growth_rate/yield + (1 - non_biodegradable_fraction)*decay_rate)*X`,
the decay term entering with a plus sign, with `MU_MAX = 6`, `DECAY = 0.62`, `KD = 0.08`,
`YH = 0.67`, `KS = 10`, `VOL = 378000`. -/
theorem C1_substrate_residual (t : realtype) (y yp : N_Vector) (LHS : N_Residual)
    (hS : KS + Ith y 15 ≠ 0) :
    Ith (funcGrowth t y yp LHS ()).2 15 =
        some (Ith y 13 / VOL * (Ith y 11 - Ith y 15)
          + (-(MU_MAX * Ith y 15 / (KS + Ith y 15)) / YH + (1 - KD) * DECAY) * Ith y 14
          - Ith yp 15)
      ∧ MU_MAX = 6 ∧ DECAY = 62 / 100 ∧ KD = 8 / 100 ∧ YH = 67 / 100 ∧ KS = 10
      ∧ VOL = 378000 := by
  refine ⟨?_, by norm_num [MU_MAX], by norm_num [DECAY], by norm_num [KD], by norm_num [YH],
    by norm_num [KS], by norm_num [VOL]⟩
  rw [LHS_15, rdiv_VOL, rdiv_of_ne _ hS]
  simp only [Option.some_bind, rdiv_neg_YH, ONE]
  congr 1
  norm_num [div_neg, neg_div]

/-- C1, witness: the amended formula at the initial guess of `main`. -/
theorem C1_substrate_residual_witness :
    KS + Ith yy0 15 ≠ 0 ∧
    Ith (funcGrowth 0 yy0 yp0 noResidual ()).2 15 =
      some (Ith yy0 13 / VOL * (Ith yy0 11 - Ith yy0 15)
        + (-(MU_MAX * Ith yy0 15 / (KS + Ith yy0 15)) / YH + (1 - KD) * DECAY) * Ith yy0 14
        - Ith yp0 15) :=
  have h : KS + Ith yy0 15 ≠ 0 := by
    rw [yy0_components.2.2.2.2.2.2.1]
    norm_num [KS]
  ⟨h, (C1_substrate_residual 0 yy0 yp0 noResidual h).1⟩

/-- C1, counterexample: at the initial guess of `main` (reactor biomass `2000`, substrate `1`,
zero derivative) `KS + y[15] = 11 ≠ 0`, the code writes `LHS[15] = -1796152/3685`, and the
formula of the claim, with `- (1 - KD)*DECAY`, evaluates to `-10203848/3685`. -/
theorem C1_substrate_sign_counterexample :
    KS + Ith yy0 15 ≠ 0 ∧
    Ith (funcGrowth 0 yy0 yp0 noResidual ()).2 15 = some (-1796152 / 3685) ∧
    Ith yy0 13 / VOL * (Ith yy0 11 - Ith yy0 15)
        + (-(MU_MAX * Ith yy0 15 / (KS + Ith yy0 15)) / YH - (1 - KD) * DECAY) * Ith yy0 14
        - Ith yp0 15 = -10203848 / 3685 ∧
    Ith (funcGrowth 0 yy0 yp0 noResidual ()).2 15 ≠
      some (Ith yy0 13 / VOL * (Ith yy0 11 - Ith yy0 15)
        + (-(MU_MAX * Ith yy0 15 / (KS + Ith yy0 15)) / YH - (1 - KD) * DECAY) * Ith yy0 14
        - Ith yp0 15) := by
  obtain ⟨-, -, h11, -, h13, h14, h15, -⟩ := yy0_components
  have hp : Ith yp0 15 = 0 := yp0_zero 15 (by norm_num) (by norm_num [NEQ])
  have hS : KS + Ith yy0 15 ≠ 0 := by rw [h15]; norm_num [KS]
  have hcode : Ith (funcGrowth 0 yy0 yp0 noResidual ()).2 15 = some (-1796152 / 3685) := by
    rw [LHS_15, rdiv_VOL, rdiv_of_ne _ hS]
    simp only [Option.some_bind, rdiv_neg_YH, h11, h13, h14, h15, hp]
    norm_num [VOL, MU_MAX, KS, YH, ONE, KD, DECAY]
  have hclaim : Ith yy0 13 / VOL * (Ith yy0 11 - Ith yy0 15)
        + (-(MU_MAX * Ith yy0 15 / (KS + Ith yy0 15)) / YH - (1 - KD) * DECAY) * Ith yy0 14
        - Ith yp0 15 = -10203848 / 3685 := by
    rw [h11, h13, h14, h15, hp]
    norm_num [VOL, MU_MAX, KS, YH, KD, DECAY]
  refine ⟨hS, hcode, hclaim, ?_⟩
  rw [hcode, hclaim]
  norm_num

/-- C2: for every `t`, `y`, `yp` with `KS + y[15] ≠ 0` the biomass residual written by
`funcGrowth` is
`LHS[14] = (y[13]/VOL)*(y[10]-y[14]) + (MU_MAX*y[15]/(KS+y[15]) - DECAY)*y[14] - yp[14]`,
with dilution by the reactor-outlet flow over `VOL = 378000`, kinetic term
`(growth_rate - decay_rate)*X`, and the derivative entering with coefficient `-1`. -/
theorem C2_biomass_residual (t : realtype) (y yp : N_Vector) (LHS : N_Residual)
    (hS : KS + Ith y 15 ≠ 0) :
    Ith (funcGrowth t y yp LHS ()).2 14 =
        some (Ith y 13 / VOL * (Ith y 10 - Ith y 14)
          + (MU_MAX * Ith y 15 / (KS + Ith y 15) - DECAY) * Ith y 14
          - Ith yp 14)
      ∧ VOL = 378000 ∧ MU_MAX = 6 ∧ DECAY = 62 / 100 ∧ KS = 10 := by
  refine ⟨?_, by norm_num [VOL], by norm_num [MU_MAX], by norm_num [DECAY], by norm_num [KS]⟩
  rw [LHS_14, rdiv_VOL, rdiv_of_ne _ hS]
  simp only [Option.some_bind]

/-- C2, witness: the biomass residual at the initial guess of `main`. -/
theorem C2_biomass_residual_witness :
    KS + Ith yy0 15 ≠ 0 ∧
    Ith (funcGrowth 0 yy0 yp0 noResidual ()).2 14 =
      some (Ith yy0 13 / VOL * (Ith yy0 10 - Ith yy0 14)
        + (MU_MAX * Ith yy0 15 / (KS + Ith yy0 15) - DECAY) * Ith yy0 14
        - Ith yp0 14) :=
  have h : KS + Ith yy0 15 ≠ 0 := by
    rw [yy0_components.2.2.2.2.2.2.1]
    norm_num [KS]
  ⟨h, (C2_biomass_residual 0 yy0 yp0 noResidual h).1⟩

/-- C3: for every `t`, `y`, `yp` the inert-solids residual written by `funcGrowth` is
`LHS[16] = (y[13]/VOL)*(y[12]-y[16]) + KD*DECAY*y[14] - yp[16]`, the kinetic term being
`0.08*0.62` times the reactor biomass. -/
theorem C3_inert_residual (t : realtype) (y yp : N_Vector) (LHS : N_Residual) :
    Ith (funcGrowth t y yp LHS ()).2 16 =
        some (Ith y 13 / VOL * (Ith y 12 - Ith y 16) + KD * DECAY * Ith y 14 - Ith yp 16)
      ∧ KD * DECAY = 8 / 100 * (62 / 100) ∧ VOL = 378000 := by
  refine ⟨?_, by norm_num [KD, DECAY], by norm_num [VOL]⟩
  rw [LHS_16, rdiv_VOL]
  simp only [Option.some_bind]

/-- C4: for every `t`, `y`, `yp` the first eight residuals written by `funcGrowth` are the
differences between the inlet-stream state and the fixed influent values, in the order flow,
biomass, substrate, inert solids: `(7800, 0, 395, 0)` for inlet 1 and `(30000, 0, 395, 0)`
for inlet 2. -/
theorem C4_inlet_residuals (t : realtype) (y yp : N_Vector) (LHS : N_Residual) :
    Ith (funcGrowth t y yp LHS ()).2 1 = some (Ith y 1 - 7800) ∧
    Ith (funcGrowth t y yp LHS ()).2 2 = some (Ith y 2 - 0) ∧
    Ith (funcGrowth t y yp LHS ()).2 3 = some (Ith y 3 - 395) ∧
    Ith (funcGrowth t y yp LHS ()).2 4 = some (Ith y 4 - 0) ∧
    Ith (funcGrowth t y yp LHS ()).2 5 = some (Ith y 5 - 30000) ∧
    Ith (funcGrowth t y yp LHS ()).2 6 = some (Ith y 6 - 0) ∧
    Ith (funcGrowth t y yp LHS ()).2 7 = some (Ith y 7 - 395) ∧
    Ith (funcGrowth t y yp LHS ()).2 8 = some (Ith y 8 - 0) := by
  rw [LHS_1, LHS_2, LHS_3, LHS_4, LHS_5, LHS_6, LHS_7, LHS_8]
  norm_num [P1_IN_F, P1_IN_X, P1_IN_S, P1_IN_D, P2_IN_F, P2_IN_X, P2_IN_S, P2_IN_D]

/-! ## The steady state -/

theorem steady_components :
    (Ith steady 1 = 7800 ∧ Ith steady 2 = 0 ∧ Ith steady 3 = 395 ∧ Ith steady 4 = 0) ∧
    (Ith steady 5 = 30000 ∧ Ith steady 6 = 0 ∧ Ith steady 7 = 395 ∧ Ith steady 8 = 0) ∧
    (Ith steady 9 = 37800 ∧ Ith steady 10 = 0 ∧ Ith steady 11 = 395 ∧ Ith steady 12 = 0) ∧
    (Ith steady 13 = 37800 ∧ Ith steady 14 = 36263750 / 464519 ∧ Ith steady 15 = 15 / 11 ∧
      Ith steady 16 = 17986820 / 464519) :=
  ⟨⟨rfl, rfl, rfl, rfl⟩, ⟨rfl, rfl, rfl, rfl⟩, ⟨rfl, rfl, rfl, rfl⟩, ⟨rfl, rfl, rfl, rfl⟩⟩

/-- With a derivative whose reactor entries `14, 15, 16` vanish, `funcGrowth` evaluates to
the zero vector at `steady`. -/
theorem steady_zero_residual (t : realtype) (yp : N_Vector) (LHS : N_Residual)
    (h14 : Ith yp 14 = 0) (h15 : Ith yp 15 = 0) (h16 : Ith yp 16 = 0) :
    ZeroResidual (funcGrowth t steady yp LHS ()).2 := by
  obtain ⟨⟨s1, s2, s3, s4⟩, ⟨s5, s6, s7, s8⟩, ⟨s9, s10, s11, s12⟩, ⟨s13, s14, s15, s16⟩⟩ :=
    steady_components
  have hF : Ith steady 9 ≠ 0 := by rw [s9]; norm_num
  have hS : KS + Ith steady 15 ≠ 0 := by rw [s15]; norm_num [KS]
  intro i h1 h2
  simp only [NEQ] at h2
  interval_cases i
  · rw [LHS_1, s1]; norm_num [P1_IN_F]
  · rw [LHS_2, s2]; norm_num [P1_IN_X]
  · rw [LHS_3, s3]; norm_num [P1_IN_S]
  · rw [LHS_4, s4]; norm_num [P1_IN_D]
  · rw [LHS_5, s5]; norm_num [P2_IN_F]
  · rw [LHS_6, s6]; norm_num [P2_IN_X]
  · rw [LHS_7, s7]; norm_num [P2_IN_S]
  · rw [LHS_8, s8]; norm_num [P2_IN_D]
  · rw [LHS_9, s9, s1, s5]; norm_num
  · rw [LHS_10, rdiv_of_ne _ hF, Option.some_bind, s1, s2, s5, s6, s9, s10]; norm_num
  · rw [LHS_11, rdiv_of_ne _ hF, Option.some_bind, s1, s3, s5, s7, s9, s11]; norm_num
  · rw [LHS_12, rdiv_of_ne _ hF, Option.some_bind, s1, s4, s5, s8, s9, s12]; norm_num
  · rw [LHS_13, s13, s9]; norm_num
  · rw [LHS_14, rdiv_VOL, rdiv_of_ne _ hS]
    simp only [Option.some_bind, s10, s13, s14, s15, h14]
    norm_num [VOL, MU_MAX, KS, DECAY]
  · rw [LHS_15, rdiv_VOL, rdiv_of_ne _ hS]
    simp only [Option.some_bind, rdiv_neg_YH, s11, s13, s14, s15, h15]
    norm_num [VOL, MU_MAX, KS, DECAY, YH, ONE, KD]
  · rw [LHS_16, rdiv_VOL]
    simp only [Option.some_bind, s12, s13, s14, s16, h16]
    norm_num [VOL, DECAY, KD]

/-- The zero derivative `vec []` at `steady` gives the zero residual. -/
theorem steady_zero_residual_vec (t : realtype) (LHS : N_Residual) :
    ZeroResidual (funcGrowth t steady (vec []) LHS ()).2 :=
  steady_zero_residual t (vec []) LHS rfl rfl rfl

/-! ## Mixing node and conservation -/

/-- C5: for every `t`, `yp` and every `y` with `y[9] ≠ 0`, `funcGrowth` writes
`LHS[9] = y[9] - (y[1] + y[5])` and, for each concentration channel `k` in `10, 11, 12`,
`LHS[k] = y[k] - (y[1]*y[k-8] + y[5]*y[k-4]) / y[9]`. -/
theorem C5_mixing_residuals (t : realtype) (y yp : N_Vector) (LHS : N_Residual)
    (hF : Ith y 9 ≠ 0) :
    Ith (funcGrowth t y yp LHS ()).2 9 = some (Ith y 9 - (Ith y 1 + Ith y 5)) ∧
    ∀ k, 10 ≤ k → k ≤ 12 →
      Ith (funcGrowth t y yp LHS ()).2 k =
        some (Ith y k - (Ith y 1 * Ith y (k - 8) + Ith y 5 * Ith y (k - 4)) / Ith y 9) := by
  refine ⟨LHS_9 t y yp LHS, ?_⟩
  intro k h1 h2
  interval_cases k
  · rw [LHS_10, rdiv_of_ne _ hF, Option.some_bind]
  · rw [LHS_11, rdiv_of_ne _ hF, Option.some_bind]
  · rw [LHS_12, rdiv_of_ne _ hF, Option.some_bind]

/-- C5, witness: the mixing residuals at the initial guess of `main`, whose reactor-inlet
flow is `2000`. -/
theorem C5_mixing_residuals_witness :
    Ith yy0 9 ≠ 0 ∧
    Ith (funcGrowth 0 yy0 yp0 noResidual ()).2 11 =
      some (Ith yy0 11 - (Ith yy0 1 * Ith yy0 3 + Ith yy0 5 * Ith yy0 7) / Ith yy0 9) :=
  have h : Ith yy0 9 ≠ 0 := by
    rw [yy0_components.1]
    norm_num
  ⟨h, (C5_mixing_residuals 0 yy0 yp0 noResidual h).2 11 (by norm_num) (by norm_num)⟩

/-- C6: `funcGrowth` writes `LHS[13] = y[13] - y[9]`, and whenever the residual components
`LHS[9]` and `LHS[13]` are zero the reactor-inlet flow is the sum of the two inlet flows and
the reactor-outlet flow equals the reactor-inlet flow. -/
theorem C6_mass_conservation (t : realtype) (y yp : N_Vector) (LHS : N_Residual) :
    Ith (funcGrowth t y yp LHS ()).2 13 = some (Ith y 13 - Ith y 9) ∧
    (Ith (funcGrowth t y yp LHS ()).2 9 = some 0 →
      Ith (funcGrowth t y yp LHS ()).2 13 = some 0 →
        Ith y 9 = Ith y 1 + Ith y 5 ∧ Ith y 13 = Ith y 9) := by
  refine ⟨LHS_13 t y yp LHS, ?_⟩
  intro h9 h13
  rw [LHS_9, Option.some_inj] at h9
  rw [LHS_13, Option.some_inj] at h13
  exact ⟨by linarith, by linarith⟩

/-- C6, witness: at the steady state both flow residuals vanish and the flows balance. -/
theorem C6_mass_conservation_witness :
    Ith (funcGrowth 0 steady (vec []) noResidual ()).2 9 = some 0 ∧
    Ith (funcGrowth 0 steady (vec []) noResidual ()).2 13 = some 0 ∧
    Ith steady 9 = Ith steady 1 + Ith steady 5 ∧ Ith steady 13 = Ith steady 9 :=
  have h9 := steady_zero_residual_vec 0 noResidual 9 (by norm_num) (by norm_num [NEQ])
  have h13 := steady_zero_residual_vec 0 noResidual 13 (by norm_num) (by norm_num [NEQ])
  ⟨h9, h13, (C6_mass_conservation 0 steady (vec []) noResidual).2 h9 h13⟩

/-- C7: every state and derivative at which the residual of `funcGrowth` is the zero vector
has reactor-inlet flow `y[9] = 37800` and reactor-inlet substrate `y[11] = 395`; more
generally, whenever the two inlet substrates share a value `s`, the sum of the inlet flows is
non-zero and the residual components `LHS[9]`, `LHS[11]` are zero, the mixed substrate
`y[11]` is `s`. -/
theorem C7_concrete_scenario (t : realtype) (y yp : N_Vector) (LHS : N_Residual) :
    (ZeroResidual (funcGrowth t y yp LHS ()).2 → Ith y 9 = 37800 ∧ Ith y 11 = 395) ∧
    (∀ s : realtype, Ith y 3 = s → Ith y 7 = s → Ith y 1 + Ith y 5 ≠ 0 →
      Ith (funcGrowth t y yp LHS ()).2 9 = some 0 →
      Ith (funcGrowth t y yp LHS ()).2 11 = some 0 → Ith y 11 = s) := by
  have general : ∀ s : realtype, Ith y 3 = s → Ith y 7 = s → Ith y 1 + Ith y 5 ≠ 0 →
      Ith (funcGrowth t y yp LHS ()).2 9 = some 0 →
      Ith (funcGrowth t y yp LHS ()).2 11 = some 0 → Ith y 11 = s := by
    intro s h3 h7 hsum h9 h11
    rw [LHS_9, Option.some_inj] at h9
    have hF : Ith y 9 = Ith y 1 + Ith y 5 := by linarith
    have hF0 : Ith y 9 ≠ 0 := by rw [hF]; exact hsum
    rw [LHS_11, rdiv_of_ne _ hF0, Option.some_bind, Option.some_inj, h3, h7, hF] at h11
    have hq : (Ith y 1 * s + Ith y 5 * s) / (Ith y 1 + Ith y 5) = s := by
      field_simp
      ring
    rw [hq] at h11
    linarith
  refine ⟨?_, general⟩
  intro h0
  have h1 := h0 1 (by norm_num) (by norm_num [NEQ])
  have h3 := h0 3 (by norm_num) (by norm_num [NEQ])
  have h5 := h0 5 (by norm_num) (by norm_num [NEQ])
  have h7 := h0 7 (by norm_num) (by norm_num [NEQ])
  have h9 := h0 9 (by norm_num) (by norm_num [NEQ])
  have h11 := h0 11 (by norm_num) (by norm_num [NEQ])
  rw [LHS_1, Option.some_inj, P1_IN_F] at h1
  rw [LHS_3, Option.some_inj, P1_IN_S] at h3
  rw [LHS_5, Option.some_inj, P2_IN_F] at h5
  rw [LHS_7, Option.some_inj, P2_IN_S] at h7
  have e1 : Ith y 1 = 7800 := by norm_num at h1; linarith
  have e3 : Ith y 3 = 395 := by norm_num at h3; linarith
  have e5 : Ith y 5 = 30000 := by norm_num at h5; linarith
  have e7 : Ith y 7 = 395 := by norm_num at h7; linarith
  have hsum : Ith y 1 + Ith y 5 ≠ 0 := by rw [e1, e5]; norm_num
  refine ⟨?_, general 395 e3 e7 hsum h9 h11⟩
  rw [LHS_9, Option.some_inj] at h9
  rw [e1, e5] at h9
  linarith

/-- C7, witness: the steady state has zero residual, hence the stated reactor-inlet flow and
substrate; and a state with other inlet flows (`1` and `2`) and common inlet substrate `5`
has mixed substrate `5`. -/
theorem C7_concrete_scenario_witness :
    (ZeroResidual (funcGrowth 0 steady (vec []) noResidual ()).2 ∧
      Ith steady 9 = 37800 ∧ Ith steady 11 = 395) ∧
    Ith (vec [1, 0, 5, 0, 2, 0, 5, 0, 3, 0, 5]) 11 = 5 :=
  ⟨⟨steady_zero_residual_vec 0 noResidual,
    (C7_concrete_scenario 0 steady (vec []) noResidual).1
      (steady_zero_residual_vec 0 noResidual)⟩,
   (C7_concrete_scenario 0 (vec [1, 0, 5, 0, 2, 0, 5, 0, 3, 0, 5]) (vec []) noResidual).2 5
      rfl rfl (by norm_num [Ith, NV_Ith_S, vec])
      (by rw [LHS_9]; norm_num [Ith, NV_Ith_S, vec])
      (by
        have hF : Ith (vec [1, 0, 5, 0, 2, 0, 5, 0, 3, 0, 5]) 9 ≠ 0 := by
          norm_num [Ith, NV_Ith_S, vec]
        rw [LHS_11, rdiv_of_ne _ hF, Option.some_bind]
        norm_num [Ith, NV_Ith_S, vec])⟩

/-- C10: with zero derivative and the influent of the repository, the state `steady`, whose
components `1..13` are `(7800, 0, 395, 0, 30000, 0, 395, 0, 37800, 0, 395, 0, 37800)`, whose
substrate is `y[15] = KS*(DECAY + F/VOL)/(MU_MAX - DECAY - F/VOL) = 15/11` with `F = 37800`,
whose biomass `y[14]` is strictly positive and whose inert solids are
`y[16] = KD*DECAY*y[14]*VOL/F`, has every component non-negative and makes the residual of
`funcGrowth` exactly the zero vector; its biomass is the only value of `y[14]` at which the
substrate balance `LHS[15] = 0` holds; and every zero-residual state with zero derivative and
`y[14] ≠ 0` has `y[15] = 15/11`. -/
theorem C10_steady_state (t : realtype) (LHS : N_Residual) :
    (List.range' 1 13).map (Ith steady)
        = [7800, 0, 395, 0, 30000, 0, 395, 0, 37800, 0, 395, 0, 37800] ∧
    Ith steady 15 = KS * (DECAY + 37800 / VOL) / (MU_MAX - DECAY - 37800 / VOL) ∧
    Ith steady 15 = 15 / 11 ∧
    0 < Ith steady 14 ∧
    Ith steady 16 = KD * DECAY * Ith steady 14 * VOL / 37800 ∧
    (∀ i, 1 ≤ i → i ≤ NEQ → 0 ≤ Ith steady i) ∧
    (∀ yp : N_Vector, (∀ i, 1 ≤ i → i ≤ NEQ → Ith yp i = 0) →
      ZeroResidual (funcGrowth t steady yp LHS ()).2) ∧
    (∀ (yp : N_Vector) (X : realtype), (∀ i, 1 ≤ i → i ≤ NEQ → Ith yp i = 0) →
      Ith (funcGrowth t (Ith_set steady 14 X) yp LHS ()).2 15 = some 0 → X = Ith steady 14) ∧
    (∀ y yp : N_Vector, (∀ i, 1 ≤ i → i ≤ NEQ → Ith yp i = 0) →
      ZeroResidual (funcGrowth t y yp LHS ()).2 → Ith y 14 ≠ 0 → Ith y 15 = 15 / 11) := by
  obtain ⟨⟨s1, s2, s3, s4⟩, ⟨s5, s6, s7, s8⟩, ⟨s9, s10, s11, s12⟩, ⟨s13, s14, s15, s16⟩⟩ :=
    steady_components
  refine ⟨rfl, ?_, s15, ?_, ?_, ?_, ?_, ?_, ?_⟩
  · rw [s15]; norm_num [KS, DECAY, VOL, MU_MAX]
  · rw [s14]; norm_num
  · rw [s16, s14]; norm_num [KD, DECAY, VOL]
  · intro i h1 h2
    simp only [NEQ] at h2
    interval_cases i
    all_goals first
      | (rw [s1]; norm_num) | (rw [s2]) | (rw [s3]; norm_num) | (rw [s4])
      | (rw [s5]; norm_num) | (rw [s6]) | (rw [s7]; norm_num) | (rw [s8])
      | (rw [s9]; norm_num) | (rw [s10]) | (rw [s11]; norm_num) | (rw [s12])
      | (rw [s13]; norm_num) | (rw [s14]; norm_num) | (rw [s15]; norm_num)
      | (rw [s16]; norm_num)
  · intro yp hyp
    exact steady_zero_residual t yp LHS (hyp 14 (by norm_num) (by norm_num [NEQ]))
      (hyp 15 (by norm_num) (by norm_num [NEQ])) (hyp 16 (by norm_num) (by norm_num [NEQ]))
  · intro yp X hyp hb
    have hp15 := hyp 15 (by norm_num) (by norm_num [NEQ])
    have hS : KS + Ith (Ith_set steady 14 X) 15 ≠ 0 := by
      rw [Ith_set_other _ _ _ _ (by norm_num), s15]
      norm_num [KS]
    rw [LHS_15, rdiv_VOL, rdiv_of_ne _ hS] at hb
    simp only [Option.some_bind, rdiv_neg_YH, Option.some_inj] at hb
    rw [Ith_set_same, Ith_set_other _ _ 13 _ (by norm_num),
      Ith_set_other _ _ 11 _ (by norm_num), Ith_set_other _ _ 15 _ (by norm_num),
      s11, s13, s15, hp15] at hb
    rw [s14]
    norm_num [VOL, MU_MAX, KS, DECAY, YH, ONE, KD] at hb
    linarith
  · intro y yp hyp h0 hX
    have h1 := h0 1 (by norm_num) (by norm_num [NEQ])
    have h2 := h0 2 (by norm_num) (by norm_num [NEQ])
    have h5 := h0 5 (by norm_num) (by norm_num [NEQ])
    have h6 := h0 6 (by norm_num) (by norm_num [NEQ])
    have h9 := h0 9 (by norm_num) (by norm_num [NEQ])
    have h10 := h0 10 (by norm_num) (by norm_num [NEQ])
    have h13 := h0 13 (by norm_num) (by norm_num [NEQ])
    have h14 := h0 14 (by norm_num) (by norm_num [NEQ])
    have hp14 := hyp 14 (by norm_num) (by norm_num [NEQ])
    rw [LHS_1, Option.some_inj, P1_IN_F] at h1
    rw [LHS_2, Option.some_inj, P1_IN_X] at h2
    rw [LHS_5, Option.some_inj, P2_IN_F] at h5
    rw [LHS_6, Option.some_inj, P2_IN_X] at h6
    rw [LHS_9, Option.some_inj] at h9
    rw [LHS_13, Option.some_inj] at h13
    have e1 : Ith y 1 = 7800 := by norm_num at h1; linarith
    have e2 : Ith y 2 = 0 := by norm_num at h2; linarith
    have e5 : Ith y 5 = 30000 := by norm_num at h5; linarith
    have e6 : Ith y 6 = 0 := by norm_num at h6; linarith
    have e9 : Ith y 9 = 37800 := by rw [e1, e5] at h9; linarith
    have e13 : Ith y 13 = 37800 := by rw [e9] at h13; linarith
    have hF : Ith y 9 ≠ 0 := by rw [e9]; norm_num
    rw [LHS_10, rdiv_of_ne _ hF, Option.some_bind, Option.some_inj, e1, e2, e5, e6, e9] at h10
    have e10 : Ith y 10 = 0 := by norm_num at h10; linarith
    have hS : KS + Ith y 15 ≠ 0 := by
      intro hz
      rw [LHS_14, rdiv_VOL, Option.some_bind, hz, rdiv_zero] at h14
      exact Option.noConfusion h14
    rw [LHS_14, rdiv_VOL, rdiv_of_ne _ hS, Option.some_bind, Option.some_bind, Option.some_inj,
      e13, e10, hp14] at h14
    simp only [KS, MU_MAX, DECAY, VOL] at h14 hS
    norm_num at h14 hS
    have hS2 : (10 : ℚ) + Ith y 15 ≠ 0 := hS
    have key : Ith y 14 * (6 * Ith y 15 / (10 + Ith y 15) - 18 / 25) = 0 := by
      linarith
    rcases mul_eq_zero.mp key with hx | hm
    · exact absurd hx hX
    · field_simp at hm
      linarith

/-- C10, witness: the uniqueness statement applied to `steady` itself, whose biomass is
non-zero, recovers its substrate `15/11`. -/
theorem C10_steady_state_witness :
    ZeroResidual (funcGrowth 0 steady (vec []) noResidual ()).2 ∧ Ith steady 14 ≠ 0 ∧
      Ith steady 15 = 15 / 11 :=
  have hX : Ith steady 14 ≠ 0 := by
    rw [steady_components.2.2.2.2.1]
    norm_num
  ⟨steady_zero_residual_vec 0 noResidual, hX,
    (C10_steady_state 0 noResidual).2.2.2.2.2.2.2.2 steady (vec []) (fun _ _ _ => rfl)
      (steady_zero_residual_vec 0 noResidual) hX⟩

/-! ## Dependence on the derivative and the id vector -/

/-- The only entries of `yp` read by `funcGrowth` are `14`, `15` and `16`. -/
theorem funcGrowth_congr_yp (t : realtype) (y yp yq : N_Vector) (LHS : N_Residual)
    (h14 : Ith yp 14 = Ith yq 14) (h15 : Ith yp 15 = Ith yq 15) (h16 : Ith yp 16 = Ith yq 16) :
    funcGrowth t y yp LHS () = funcGrowth t y yq LHS () := by
  simp only [funcGrowth, h14, h15, h16]

/-- Entries `1..13` of the derivative do not influence `funcGrowth`. -/
theorem not_dependsOnYp (i : Nat) (h1 : 1 ≤ i) (h2 : i ≤ 13) : ¬ DependsOnYp i := by
  rintro ⟨t, y, yp, LHS, x, hne⟩
  apply hne
  rw [funcGrowth_congr_yp t y (Ith_set yp i x) yp LHS
    (Ith_set_other yp i 14 x (by omega)) (Ith_set_other yp i 15 x (by omega))
    (Ith_set_other yp i 16 x (by omega))]

/-- Shifting the derivative entry `yp[i]`, `i` in `14, 15, 16`, by `d` shifts `LHS[i]` by
`-d`. -/
theorem LHS_shift (t : realtype) (y yp : N_Vector) (LHS : N_Residual) (d : realtype)
    (i : Nat) (h1 : 14 ≤ i) (h2 : i ≤ 16) :
    Ith (funcGrowth t y (Ith_set yp i (Ith yp i + d)) LHS ()).2 i =
      (Ith (funcGrowth t y yp LHS ()).2 i).map fun r => r - d := by
  interval_cases i
  · rw [LHS_14, LHS_14, Ith_set_same, rdiv_VOL]
    simp only [Option.some_bind]
    cases rdiv (MU_MAX * Ith y 15) (KS + Ith y 15) with
    | none => rfl
    | some m =>
      simp only [Option.some_bind, Option.map_some']
      congr 1
      ring
  · rw [LHS_15, LHS_15, Ith_set_same, rdiv_VOL]
    simp only [Option.some_bind]
    cases rdiv (MU_MAX * Ith y 15) (KS + Ith y 15) with
    | none => rfl
    | some m =>
      simp only [Option.some_bind, rdiv_neg_YH, Option.map_some']
      congr 1
      ring
  · rw [LHS_16, LHS_16, Ith_set_same, rdiv_VOL]
    simp only [Option.some_bind, Option.map_some']
    congr 1
    ring

/-- Entries `14, 15, 16` of the derivative do influence `funcGrowth`. -/
theorem dependsOnYp (i : Nat) (h1 : 14 ≤ i) (h2 : i ≤ 16) : DependsOnYp i := by
  refine ⟨0, vec [], vec [], noResidual, Ith (vec []) i + 1, ?_⟩
  intro heq
  have hs := LHS_shift 0 (vec []) (vec []) noResidual 1 i h1 h2
  rw [heq] at hs
  have hS : KS + Ith (vec []) 15 ≠ 0 := by norm_num [KS, Ith, NV_Ith_S, vec]
  interval_cases i
  · rw [LHS_14, rdiv_VOL, rdiv_of_ne _ hS] at hs
    simp only [Option.some_bind, Option.map_some', Option.some_inj] at hs
    linarith
  · rw [LHS_15, rdiv_VOL, rdiv_of_ne _ hS] at hs
    simp only [Option.some_bind, rdiv_neg_YH, Option.map_some', Option.some_inj] at hs
    linarith
  · rw [LHS_16, rdiv_VOL] at hs
    simp only [Option.some_bind, Option.map_some', Option.some_inj] at hs
    linarith

/-- C8: whatever the allocated memory held, the id vector built in `main` has exactly 3 of
its 16 entries equal to `1.0` and 13 equal to `0.0`; for every index `i` in `1..16`,
`yid[i] = 1.0` if and only if the residual of `funcGrowth` depends on `yp[i]`; the
differential indices are exactly `14, 15, 16`, where `yp[i]` enters `LHS[i]` with coefficient
`-1`; and the residual is independent of `yp[1..13]`. -/
theorem C8_classifier (v : N_Vector) :
    ((List.range' 1 NEQ).filter fun i => decide (Ith (main_yid v) i = 1)).length = 3 ∧
    ((List.range' 1 NEQ).filter fun i => decide (Ith (main_yid v) i = 0)).length = 13 ∧
    (∀ i, 1 ≤ i → i ≤ NEQ → (Ith (main_yid v) i = 1 ↔ DependsOnYp i)) ∧
    (∀ i, 1 ≤ i → i ≤ NEQ → (Ith (main_yid v) i = 1 ↔ i = 14 ∨ i = 15 ∨ i = 16)) ∧
    (∀ i, 14 ≤ i → i ≤ 16 →
      ∀ (t : realtype) (y yp : N_Vector) (LHS : N_Residual) (d : realtype),
        Ith (funcGrowth t y (Ith_set yp i (Ith yp i + d)) LHS ()).2 i =
          (Ith (funcGrowth t y yp LHS ()).2 i).map fun r => r - d) ∧
    (∀ (t : realtype) (y yp yq : N_Vector) (LHS : N_Residual),
      (∀ i, 14 ≤ i → i ≤ 16 → Ith yp i = Ith yq i) →
        funcGrowth t y yp LHS () = funcGrowth t y yq LHS ()) := by
  have one : ∀ i ∈ List.range' 1 NEQ,
      decide (Ith (main_yid v) i = 1) = decide (14 ≤ i) := by
    intro i hi
    rw [List.mem_range'_1] at hi
    rw [main_yid_apply v i hi.1 (by omega)]
    by_cases h : 14 ≤ i <;> simp [h]
  have zero : ∀ i ∈ List.range' 1 NEQ,
      decide (Ith (main_yid v) i = 0) = decide (i < 14) := by
    intro i hi
    rw [List.mem_range'_1] at hi
    rw [main_yid_apply v i hi.1 (by omega)]
    by_cases h : 14 ≤ i
    · have h' : ¬ i < 14 := by omega
      simp [h, h']
    · have h' : i < 14 := by omega
      simp [h, h']
  refine ⟨?_, ?_, ?_, ?_, ?_, ?_⟩
  · rw [List.filter_congr one]
    rfl
  · rw [List.filter_congr zero]
    rfl
  · intro i h1 h2
    rw [main_yid_apply v i h1 h2]
    by_cases h : 14 ≤ i
    · simp only [if_pos h, true_iff]
      exact dependsOnYp i h h2
    · simp only [if_neg h, zero_ne_one, false_iff]
      exact not_dependsOnYp i h1 (by omega)
  · intro i h1 h2
    rw [main_yid_apply v i h1 h2]
    simp only [NEQ] at h2
    by_cases h : 14 ≤ i
    · simp only [if_pos h, true_iff]
      omega
    · simp only [if_neg h, zero_ne_one, false_iff]
      omega
  · intro i h1 h2 t y yp LHS d
    exact LHS_shift t y yp LHS d i h1 h2
  · intro t y yp yq LHS h
    exact funcGrowth_congr_yp t y yp yq LHS (h 14 (by norm_num) (by norm_num))
      (h 15 (by norm_num) (by norm_num)) (h 16 (by norm_num) (by norm_num))

/-- C8, witness: with the allocated memory read as zeros, entry `15` of the id vector is
`1.0`, so the residual depends on `yp[15]`; entry `9` is not, so it does not depend on
`yp[9]`. -/
theorem C8_classifier_witness :
    Ith (main_yid (vec [])) 15 = 1 ∧ DependsOnYp 15 ∧
    Ith (main_yid (vec [])) 9 ≠ 1 ∧ ¬ DependsOnYp 9 :=
  have h15 : Ith (main_yid (vec [])) 15 = 1 := by
    rw [main_yid_apply _ 15 (by norm_num) (by norm_num [NEQ])]
    norm_num
  have h9 : Ith (main_yid (vec [])) 9 ≠ 1 := by
    rw [main_yid_apply _ 9 (by norm_num) (by norm_num [NEQ])]
    norm_num
  ⟨h15, ((C8_classifier (vec [])).2.2.1 15 (by norm_num) (by norm_num [NEQ])).1 h15,
    h9, fun hd => h9 (((C8_classifier (vec [])).2.2.1 9 (by norm_num) (by norm_num [NEQ])).2 hd)⟩

/-! ## Division safety -/

/-- The residual is defined on all sixteen components exactly when none of the divisors of
`funcGrowth` is zero. -/
theorem defined_iff_divisors_ne_zero (t : realtype) (y yp : N_Vector) (LHS : N_Residual) :
    DefinedResidual (funcGrowth t y yp LHS ()).2 ↔ ∀ d ∈ funcGrowth_divisors y, d ≠ 0 := by
  constructor
  · intro hdef
    have h10 := hdef 10 (by norm_num) (by norm_num [NEQ])
    have h14 := hdef 14 (by norm_num) (by norm_num [NEQ])
    have hF : Ith y 9 ≠ 0 := by
      intro hz
      rw [LHS_10, hz, rdiv_zero] at h10
      exact Bool.noConfusion h10
    have hS : KS + Ith y 15 ≠ 0 := by
      intro hz
      rw [LHS_14, rdiv_VOL, Option.some_bind, hz, rdiv_zero] at h14
      exact Bool.noConfusion h14
    intro d hd
    simp only [funcGrowth_divisors, List.mem_cons, List.mem_singleton] at hd
    rcases hd with h | h | h | h | h | h | h | h | h | h
    all_goals first
      | (rw [h]; exact hF) | (rw [h]; exact hS) | (rw [h]; exact VOL_ne_zero)
      | (rw [h]; exact neg_YH_ne_zero) | exact absurd h (List.not_mem_nil d)
  · intro hdiv
    have hF : Ith y 9 ≠ 0 := hdiv _ (by simp [funcGrowth_divisors])
    have hS : KS + Ith y 15 ≠ 0 := hdiv _ (by simp [funcGrowth_divisors])
    intro i h1 h2
    simp only [NEQ] at h2
    interval_cases i
    · rw [LHS_1]; rfl
    · rw [LHS_2]; rfl
    · rw [LHS_3]; rfl
    · rw [LHS_4]; rfl
    · rw [LHS_5]; rfl
    · rw [LHS_6]; rfl
    · rw [LHS_7]; rfl
    · rw [LHS_8]; rfl
    · rw [LHS_9]; rfl
    · rw [LHS_10, rdiv_of_ne _ hF]; rfl
    · rw [LHS_11, rdiv_of_ne _ hF]; rfl
    · rw [LHS_12, rdiv_of_ne _ hF]; rfl
    · rw [LHS_13]; rfl
    · rw [LHS_14, rdiv_VOL, rdiv_of_ne _ hS]; rfl
    · rw [LHS_15, rdiv_VOL, rdiv_of_ne _ hS]
      simp only [Option.some_bind, rdiv_neg_YH]
      rfl
    · rw [LHS_16, rdiv_VOL]; rfl

/-- C9 (amended): for every `t`, `yp` and every `y` with strictly positive reactor-inlet flow
`y[9] > 0` and with `KS + y[15] ≠ 0`, every division performed by `funcGrowth` has a
non-zero divisor (the divisors being `y[9]`, `KS + y[15]`, `VOL` and `-YH`), the residual is
defined on all 16 components and `funcGrowth` returns `0`. -/
theorem C9_division_safety (t : realtype) (y yp : N_Vector) (LHS : N_Residual)
    (hF : 0 < Ith y 9) (hS : KS + Ith y 15 ≠ 0) :
    (∀ d ∈ funcGrowth_divisors y, d ≠ 0) ∧
    DefinedResidual (funcGrowth t y yp LHS ()).2 ∧
    (funcGrowth t y yp LHS ()).1 = 0 := by
  have hdiv : ∀ d ∈ funcGrowth_divisors y, d ≠ 0 := by
    intro d hd
    simp only [funcGrowth_divisors, List.mem_cons, List.mem_singleton] at hd
    rcases hd with h | h | h | h | h | h | h | h | h | h
    all_goals first
      | (rw [h]; exact ne_of_gt hF) | (rw [h]; exact hS) | (rw [h]; exact VOL_ne_zero)
      | (rw [h]; exact neg_YH_ne_zero) | exact absurd h (List.not_mem_nil d)
  exact ⟨hdiv, (defined_iff_divisors_ne_zero t y yp LHS).2 hdiv, rfl⟩

/-- C9, witness: the initial guess of `main` has reactor-inlet flow `2000 > 0` and
`KS + y[15] = 11`, so its residual is defined everywhere. -/
theorem C9_division_safety_witness :
    0 < Ith yy0 9 ∧ KS + Ith yy0 15 ≠ 0 ∧
    DefinedResidual (funcGrowth 0 yy0 yp0 noResidual ()).2 ∧
    (funcGrowth 0 yy0 yp0 noResidual ()).1 = 0 :=
  have hF : 0 < Ith yy0 9 := by
    rw [yy0_components.1]
    norm_num
  have hS : KS + Ith yy0 15 ≠ 0 := by
    rw [yy0_components.2.2.2.2.2.2.1]
    norm_num [KS]
  ⟨hF, hS, (C9_division_safety 0 yy0 yp0 noResidual hF hS).2⟩

/-- C9, counterexample: the initial guess of `main` with the reactor substrate replaced by
`-10` has reactor-inlet flow `2000 > 0`, yet the divisor `KS + y[15]` is `0`, the list of
divisors contains `0`, and `LHS[14]`, `LHS[15]` have no value: positive reactor-inlet flow
alone does not make the residual defined. -/
theorem C9_positive_flow_counterexample :
    0 < Ith (Ith_set yy0 15 (-10)) 9 ∧
    KS + Ith (Ith_set yy0 15 (-10)) 15 = 0 ∧
    (0 : realtype) ∈ funcGrowth_divisors (Ith_set yy0 15 (-10)) ∧
    Ith (funcGrowth 0 (Ith_set yy0 15 (-10)) yp0 noResidual ()).2 14 = none ∧
    Ith (funcGrowth 0 (Ith_set yy0 15 (-10)) yp0 noResidual ()).2 15 = none ∧
    ¬ DefinedResidual (funcGrowth 0 (Ith_set yy0 15 (-10)) yp0 noResidual ()).2 := by
  have h9 : Ith (Ith_set yy0 15 (-10)) 9 = 2000 := by
    rw [Ith_set_other _ _ _ _ (by norm_num), yy0_components.1]
  have hS : KS + Ith (Ith_set yy0 15 (-10)) 15 = 0 := by
    rw [Ith_set_same]
    norm_num [KS]
  have h14 : Ith (funcGrowth 0 (Ith_set yy0 15 (-10)) yp0 noResidual ()).2 14 = none := by
    rw [LHS_14, rdiv_VOL, Option.some_bind, hS, rdiv_zero]
    rfl
  have h15 : Ith (funcGrowth 0 (Ith_set yy0 15 (-10)) yp0 noResidual ()).2 15 = none := by
    rw [LHS_15, rdiv_VOL, Option.some_bind, hS, rdiv_zero]
    rfl
  refine ⟨by rw [h9]; norm_num, hS, ?_, h14, h15, ?_⟩
  · simp only [funcGrowth_divisors, hS, List.mem_cons]
    tauto
  · intro hdef
    have h := hdef 14 (by norm_num) (by norm_num [NEQ])
    rw [h14] at h
    exact Bool.noConfusion h

end PooPyLab
